import Mathlib

set_option linter.unusedVariables false
set_option maxRecDepth 40000

/-!
Shallow embedding of the story-generation pipeline in
`src/backend/story_service.py` (Python), for checking the repository's
specification.

External model calls (Gemini text / vision / image endpoints) are modelled
by explicit per-attempt outcome environments: an attempt either returns a
payload or raises an error carrying a message string, exactly the
information the Python code inspects.  Python `bytes` values are modelled
as `List (Fin 256)`; Python exceptions as `Except String`; the blocking
`time.sleep(d)` calls are made observable by returning, next to each
result, the list of slept durations in order.
-/

namespace Storybook

/-- A byte, as in a Python `bytes` object: an integer in `[0, 256)`. -/
abbrev Byte := Fin 256

/-- The fixed default character description returned by `analyze_photo`
on any failure and used by the orchestrator when analysis never ran
(story_service.py lines 68, 108, 112, 487, 509). -/
def defaultDescription : String :=
  "A cheerful child with a bright smile and curious eyes."

/-- Python `needle in hay` on strings: substring containment. -/
def containsStr (hay needle : String) : Bool :=
  decide (needle.data <:+: hay.data)

/-- Python `str.lower()`, character by character. -/
def lowerStr (s : String) : String := String.mk (s.data.map Char.toLower)

/-- The quota / rate-limit signature test applied to a raised error `e`:
`"429" in str(e) or "quota" in str(e).lower()`
(story_service.py lines 100, 226, 239, 298). -/
def isQuotaError (msg : String) : Bool :=
  containsStr msg "429" || containsStr (lowerStr msg) "quota"

/-! ### Base64 (Python `base64.b64encode`, RFC 4648)

`Story.to_dict` transport-encodes each image with `base64.b64encode`;
the encoder below is the standard base64 of that library call, and the
decoder is its inverse.
-/

/-- The base64 alphabet, index 0–63. -/
def b64chars : List Char :=
  ['A', 'B', 'C', 'D', 'E', 'F', 'G', 'H', 'I', 'J', 'K', 'L', 'M',
   'N', 'O', 'P', 'Q', 'R', 'S', 'T', 'U', 'V', 'W', 'X', 'Y', 'Z',
   'a', 'b', 'c', 'd', 'e', 'f', 'g', 'h', 'i', 'j', 'k', 'l', 'm',
   'n', 'o', 'p', 'q', 'r', 's', 't', 'u', 'v', 'w', 'x', 'y', 'z',
   '0', '1', '2', '3', '4', '5', '6', '7', '8', '9', '+', '/']

/-- Character for a 6-bit group. -/
def encB64 (i : Nat) : Char := b64chars.getD i 'A'

/-- 6-bit group for a base64 character (64 when the character is not in
the alphabet; never hit on round trips). -/
def decB64 (c : Char) : Nat := b64chars.indexOf c

/-- Base64-encode a byte sequence, three bytes to four characters, with
`=` padding. -/
def b64encodeNat : List Nat → List Char
  | [] => []
  | [b1] =>
      [encB64 (b1 / 4), encB64 (b1 % 4 * 16), '=', '=']
  | [b1, b2] =>
      [encB64 (b1 / 4), encB64 (b1 % 4 * 16 + b2 / 16),
       encB64 (b2 % 16 * 4), '=']
  | b1 :: b2 :: b3 :: rest =>
      encB64 (b1 / 4) :: encB64 (b1 % 4 * 16 + b2 / 16) ::
      encB64 (b2 % 16 * 4 + b3 / 64) :: encB64 (b3 % 64) ::
      b64encodeNat rest

/-- Base64-decode, four characters to up to three bytes, honouring `=`
padding. -/
def b64decodeNat : List Char → List Nat
  | c1 :: c2 :: c3 :: c4 :: rest =>
      if c3 = '=' then
        [decB64 c1 * 4 + decB64 c2 / 16]
      else if c4 = '=' then
        [decB64 c1 * 4 + decB64 c2 / 16,
         decB64 c2 % 16 * 16 + decB64 c3 / 4]
      else
        (decB64 c1 * 4 + decB64 c2 / 16) ::
        (decB64 c2 % 16 * 16 + decB64 c3 / 4) ::
        (decB64 c3 % 4 * 64 + decB64 c4) ::
        b64decodeNat rest
  | _ => []

/-- `base64.b64encode(img).decode('utf-8')` on a byte string. -/
def b64encode (b : List Byte) : String :=
  String.mk (b64encodeNat (b.map Fin.val))

/-- Clamp a decoded group value into a byte. -/
def mkByte (n : Nat) : Byte := ⟨n % 256, Nat.mod_lt n (by decide)⟩

/-- Base64 decoding of a transport string back to bytes. -/
def b64decode (s : String) : List Byte := (b64decodeNat s.data).map mkByte

/-! ### StoryDocument and its transport serialization -/

/-- The `Story` class (story_service.py lines 41–47): a story document.
`images` entries are `none` for failed illustrations, mirroring the
`None` entries produced by `generate_images`. -/
structure Story where
  title : String
  moral : String
  story : List String
  imagePrompts : List String
  images : List (Option (List Byte))
  deriving Repr, DecidableEq

/-- The serialized transport form produced by `Story.to_dict`. -/
structure StoryDict where
  title : String
  moral : String
  story : List String
  imagePrompts : List String
  images : List (Option String)
  deriving Repr, DecidableEq

/-- One entry of the serialized image list:
`base64.b64encode(img).decode('utf-8') if img else None`.
Python truthiness: `img` is falsy both when it is `None` and when it is
the empty byte string, so both serialize to `None`. -/
def serializeImage : Option (List Byte) → Option String
  | some b => if b = [] then none else some (b64encode b)
  | none => none

/-- `Story.to_dict` (story_service.py lines 49–56). -/
def Story.to_dict (s : Story) : StoryDict :=
  { title := s.title
    moral := s.moral
    story := s.story
    imagePrompts := s.imagePrompts
    images := s.images.map serializeImage }

/-- Modelled from the spec: the decoder at the far side of the
serialization boundary ("images must encode to a transport-safe text
form"); the consuming persistence/response layer is outside `src/`.  It
base64-decodes each present image and keeps `null` entries in place. -/
def decodeDict (d : StoryDict) : Story :=
  { title := d.title
    moral := d.moral
    story := d.story
    imagePrompts := d.imagePrompts
    images := d.images.map (Option.map b64decode) }

/-! ### Fallback content provider (story_service.py lines 318–468) -/

/-- One entry of the `fallback_stories` table: a canned story template. -/
structure FallbackTemplate where
  title : String
  moral : String
  story : List String
  imagePrompts : List String
  deriving Repr, DecidableEq

/-- `fallback_stories["forest"]` (story_service.py lines 340–359),
with `kid_name` interpolated as in the Python f-strings. -/
def forestTemplate (k : String) : FallbackTemplate where
  title := k ++ "\x27s Magical Forest Adventure"
  moral := "Kindness to nature brings unexpected friends and rewards."
  story :=
    ["One sunny morning, " ++ k ++ " decided to explore the magical forest near their home.",
     "The trees whispered secrets as " ++ k ++ " walked deeper into the woods, discovering a hidden path covered with golden leaves.",
     "Suddenly, a small fox with bright blue eyes appeared and bowed to " ++ k ++ ", saying, \x27We\x27ve been waiting for you, special one!\x27",
     "The fox led " ++ k ++ " to a clearing where animals of all kinds had gathered around an ancient oak tree that sparkled with tiny lights.",
     "\x27Our forest is losing its magic,\x27 explained the wise old owl perched on a branch, \x27and you have the kind heart needed to help restore it.\x27",
     k ++ " gently placed their hands on the ancient tree, and immediately felt a warm glow spreading through their fingers.",
     "As " ++ k ++ " closed their eyes and wished for the forest\x27s magic to return, colorful beams of light shot from their fingertips into the sky.",
     "The animals cheered as the forest came alive with vibrant colors and magical creatures, and they named " ++ k ++ " their forever friend and protector of the forest."]
  imagePrompts :=
    ["A child named " ++ k ++ " walking into a magical forest with sunlight streaming through the trees and tiny glowing sprites hiding among the leaves",
     "A friendly fox with bright blue eyes bowing to " ++ k ++ " on a path covered with golden leaves in an enchanted forest",
     k ++ " standing in a forest clearing surrounded by woodland animals gathered around a giant ancient oak tree that sparkles with magical lights",
     k ++ " with hands on a magical tree trunk, colorful beams of light shooting from their fingertips into the sky as forest animals watch in amazement"]

/-- `fallback_stories["space"]` (story_service.py lines 360–379). -/
def spaceTemplate (k : String) : FallbackTemplate where
  title := k ++ "\x27s Cosmic Journey"
  moral := "Courage and friendship can overcome any challenge in the universe."
  story :=
    [k ++ " was gazing at the stars through their telescope when a small, glowing spaceship landed in their backyard.",
     "A friendly alien with purple skin and three eyes emerged, introducing itself as Zorb from the planet Lumina.",
     "\x27We need your help,\x27 Zorb explained to " ++ k ++ ", \x27our planet\x27s cosmic crystal is fading, and without it, our world will lose all its light.\x27",
     "Without hesitation, " ++ k ++ " climbed aboard the spaceship, which zoomed through the galaxy past swirling nebulae and shooting stars.",
     "When they arrived at Lumina, " ++ k ++ " was amazed to see floating cities and rainbow bridges connecting crystal mountains.",
     "The planet\x27s elders showed " ++ k ++ " the dying crystal at the planet\x27s core, which had lost its sparkle and glow.",
     k ++ " remembered the special stardust they had collected from a meteor shower and sprinkled it gently over the cosmic crystal.",
     "The crystal immediately burst into brilliant light, saving Lumina, and the grateful aliens made " ++ k ++ " an honorary citizen of their world, promising they would always be friends across the stars."]
  imagePrompts :=
    ["A child named " ++ k ++ " looking through a telescope at night when a small glowing spaceship lands in their backyard with stars twinkling in the sky",
     k ++ " meeting a friendly purple alien with three eyes named Zorb who has emerged from a spaceship with cosmic light surrounding them",
     k ++ " and alien Zorb flying through space in a glowing spaceship, passing colorful nebulae, planets, and shooting stars",
     k ++ " sprinkling magical stardust over a large crystal at the core of an alien planet, with the crystal bursting into brilliant rainbow light"]

/-- `fallback_stories["ocean"]` (story_service.py lines 380–399). -/
def oceanTemplate (k : String) : FallbackTemplate where
  title := k ++ " and the Underwater Kingdom"
  moral := "True friendship means helping others in need, no matter how different they may be."
  story :=
    [k ++ " was playing at the beach when they discovered a beautiful shell that glowed with an otherworldly blue light.",
     "When " ++ k ++ " picked up the shell, it transformed into a magical pendant that allowed them to breathe underwater.",
     "Curious and excited, " ++ k ++ " waded into the ocean and dove beneath the waves, discovering an entire kingdom of merpeople living in coral palaces.",
     "The Mer-King approached " ++ k ++ " and explained that their kingdom was in danger from a dark shadow that was poisoning their waters.",
     "\x27Only someone from the surface world with a pure heart can help us,\x27 said the Mer-King, showing " ++ k ++ " how the shadow was spreading through their beautiful home.",
     "Determined to help, " ++ k ++ " followed the source of the darkness to an old shipwreck where plastic waste from the human world had collected.",
     "Using the magic of the pendant, " ++ k ++ " created a whirlpool that gathered all the pollution into a ball that they could remove from the ocean.",
     "The grateful merpeople celebrated " ++ k ++ "\x27s bravery with an underwater festival of lights, and promised that anytime " ++ k ++ " returned to the sea, they would be welcomed as a hero."]
  imagePrompts :=
    ["A child named " ++ k ++ " at the beach finding a beautiful shell that glows with magical blue light in their hands",
     k ++ " swimming underwater wearing a glowing blue pendant, approaching a magnificent coral palace where merpeople live",
     k ++ " and the Mer-King looking concerned at a dark shadow spreading through the colorful underwater kingdom",
     k ++ " creating a magical whirlpool underwater that collects pollution, surrounded by grateful merpeople with colorful tails"]

/-- `fallback_stories["kingdom"]` (story_service.py lines 400–419). -/
def kingdomTemplate (k : String) : FallbackTemplate where
  title := k ++ " and the Dragon\x27s Gift"
  moral := "True courage means facing your fears to help others."
  story :=
    ["In a kingdom far away, everyone was afraid of the dragon that lived in the mountain cave, except for " ++ k ++ ", who was curious rather than frightened.",
     "One day, " ++ k ++ " decided to visit the dragon, climbing the winding mountain path with only a lantern and a basket of freshly baked cookies.",
     "Inside the cave, " ++ k ++ " discovered not a fearsome beast, but a sad dragon named Ember who was crying glittering tears that turned into gemstones when they hit the ground.",
     "\x27Everyone is afraid of me,\x27 Ember explained to " ++ k ++ ", \x27but I\x27m actually lonely and just want to make friends with the people in the kingdom.\x27",
     k ++ " had an idea and invited Ember to visit the kingdom during the annual festival, promising that they would help everyone see how gentle the dragon truly was.",
     "When the festival day arrived, " ++ k ++ " led Ember to the kingdom square where people initially ran away in fear, hiding behind market stalls and castle walls.",
     k ++ " bravely stood beside Ember and explained to everyone that the dragon only wanted friendship and could help the kingdom with its magical fire that could forge the strongest tools and most beautiful art.",
     "Slowly, the people approached and welcomed Ember, and from that day forward, the kingdom flourished as " ++ k ++ " and Ember taught everyone that appearances can be deceiving and friendship can be found in the most unexpected places."]
  imagePrompts :=
    ["A child named " ++ k ++ " climbing a mountain path with a lantern and basket of cookies, approaching a cave with a faint glow coming from inside",
     k ++ " sitting beside a gentle dragon named Ember inside a cave, with the dragon crying glittering tears that turn into gemstones",
     k ++ " leading a colorful dragon named Ember into a medieval kingdom during a festival, with people hiding behind market stalls",
     k ++ " and dragon Ember surrounded by smiling villagers in a medieval kingdom square, with the dragon using magical fire to create beautiful art"]

/-- `fallback_stories["dinosaur"]` (story_service.py lines 420–439).
The fifth sentence reproduces the source file's mojibake dash
(`â€“`) byte-for-byte. -/
def dinosaurTemplate (k : String) : FallbackTemplate where
  title := k ++ "\x27s Prehistoric Adventure"
  moral := "Teamwork and understanding can overcome the biggest challenges."
  story :=
    [k ++ " was digging in their backyard when their shovel hit something hard that turned out to be an unusual egg-shaped stone with swirling patterns.",
     "That night, the stone began to glow and pulse with light, and suddenly " ++ k ++ " found themselves transported to a prehistoric world filled with towering trees and giant ferns.",
     "A baby Triceratops nudged " ++ k ++ "\x27s hand, looking up with friendly eyes that seemed to ask for help finding its family.",
     k ++ " and the baby dinosaur set off through the lush jungle, crossing bubbling lava streams and avoiding quicksand pits.",
     "Along the way, they met other dinosaurs â€“ a helpful Pteranodon that showed them the way from above, and a gentle Brachiosaurus that helped them cross a wide river.",
     "Suddenly, the ground began to shake as a Tyrannosaurus Rex appeared, but instead of being scary, the T-Rex had a thorn stuck in its foot and was roaring in pain.",
     k ++ " bravely approached the mighty dinosaur and carefully removed the thorn, earning a grateful nod from the T-Rex who then led them to the Triceratops herd.",
     "After a joyful reunion with the baby\x27s family, the stone began to glow again, and " ++ k ++ " was transported home with a tiny dinosaur footprint fossil as a reminder of their amazing adventure."]
  imagePrompts :=
    ["A child named " ++ k ++ " in their backyard finding a glowing egg-shaped stone with swirling patterns while digging",
     k ++ " in a prehistoric jungle with a baby Triceratops nudging their hand, surrounded by giant ferns and towering trees",
     k ++ " and a baby Triceratops approaching a T-Rex with a thorn in its foot in a prehistoric landscape with volcanoes in the background",
     k ++ " surrounded by a herd of Triceratops in a prehistoric setting, holding a glowing stone as it begins to transport them home"]

/-- Lookup in the `fallback_stories` dictionary keyed by theme. -/
def lookupFallback (k theme : String) : Option FallbackTemplate :=
  if theme = "forest" then some (forestTemplate k)
  else if theme = "space" then some (spaceTemplate k)
  else if theme = "ocean" then some (oceanTemplate k)
  else if theme = "kingdom" then some (kingdomTemplate k)
  else if theme = "dinosaur" then some (dinosaurTemplate k)
  else none

/-- `length_mapping.get(story_length, 8)`
(story_service.py lines 132–137 and 332–337). -/
def lengthMapping (story_length : String) : Nat :=
  if story_length = "short" then 6
  else if story_length = "medium" then 8
  else if story_length = "long" then 12
  else 8

/-- The generic filler sentence appended while padding
(story_service.py line 454). -/
def fillerSentence (k : String) : String :=
  k ++ " had an amazing adventure and couldn\x27t wait to tell everyone about it."

/-- The generic filler image prompt appended while padding
(story_service.py line 458). -/
def fillerPrompt (k theme : String) : String :=
  k ++ " having a wonderful adventure in a magical " ++ theme ++ " setting."

/-- `while len(l) < n: l.append(filler)` — appends `filler` until the
list reaches length `n` (a no-op when it is already long enough). -/
def padTo (l : List String) (n : Nat) (filler : String) : List String :=
  l ++ List.replicate (n - l.length) filler

/-- `if theme not in fallback_stories: theme = "forest"` — the theme
actually used after the default is applied (story_service.py
lines 442–443; the reassigned `theme` also feeds the filler prompt). -/
def chosenTheme (kid_name theme : String) : String :=
  if (lookupFallback kid_name theme).isSome then theme else "forest"

/-- `fallback_story = fallback_stories[theme]` after the default theme
is applied (story_service.py line 445). -/
def chosenTemplate (kid_name theme : String) : FallbackTemplate :=
  (lookupFallback kid_name (chosenTheme kid_name theme)).getD (forestTemplate kid_name)

/-- `create_fallback_story` (story_service.py lines 318–468).
`story_type`, `special_ingredients` and `child_description` are accepted
but unused, as in the source. -/
def create_fallback_story (kid_name theme story_type story_length
    special_ingredients child_description : String) : Story :=
  let sentence_count := lengthMapping story_length
  let theme2 := chosenTheme kid_name theme
  let t := chosenTemplate kid_name theme
  let shaped :=
    if t.story.length ≠ sentence_count then
      if t.story.length > sentence_count then
        (t.story.take sentence_count, t.imagePrompts.take (sentence_count / 2))
      else
        (padTo t.story sentence_count (fillerSentence kid_name),
         padTo t.imagePrompts (sentence_count / 2) (fillerPrompt kid_name theme2))
    else (t.story, t.imagePrompts)
  { title := t.title
    moral := t.moral
    story := shaped.1
    imagePrompts := shaped.2
    images := List.replicate shaped.2.length none }

/-! ### Retry loops and the live pipeline

Each external call site runs a `for attempt in range(3)` loop with base
delay 2.  The loops below recurse over the explicit attempt-index list
`[0, 1, 2]` (`range(max_retries)` with `max_retries = 3`); the `[]` case
corresponds to falling off the end of the `for` loop.  Next to its
result, each loop returns the list of backoff sleep durations
(`base_delay * 2 ** attempt`) it performed, in order.
-/

/-- Outcome of one `client.models.generate_content` vision call inside
`analyze_photo`: the response text, or a raised error's message. -/
inductive VisAttempt where
  | ok (text : String)
  | err (msg : String)
  deriving Repr, DecidableEq

/-- The retry loop of `analyze_photo` (story_service.py lines 85–106):
returns the trimmed text of the first non-empty response; breaks out on
a quota signature; sleeps `2 * 2 ** attempt` between attempts; falls
through to the default description when attempts are exhausted. -/
def analyzePhotoLoop (att : Nat → VisAttempt) : List Nat → String × List Nat
  | [] => (defaultDescription, [])
  | attempt :: rest =>
    match att attempt with
    | .ok t =>
        if t ≠ "" then (t.trim, [])
        else if attempt < 2 then
          let r := analyzePhotoLoop att rest
          (r.1, 2 * 2 ^ attempt :: r.2)
        else analyzePhotoLoop att rest
    | .err m =>
        if isQuotaError m then (defaultDescription, [])
        else if attempt < 2 then
          let r := analyzePhotoLoop att rest
          (r.1, 2 * 2 ^ attempt :: r.2)
        else analyzePhotoLoop att rest

/-- `analyze_photo` (story_service.py lines 58–112).  `apiInit` is
`API_INITIALIZED and client`; `imageOk` is whether `Image.open` accepts
the photo bytes (a failure is absorbed by the outer `except`, which
returns the default description).  Never fails: total with a `String`
result. -/
def analyze_photo (apiInit imageOk : Bool) (att : Nat → VisAttempt) :
    String × List Nat :=
  if !apiInit then (defaultDescription, [])
  else if !imageOk then (defaultDescription, [])
  else analyzePhotoLoop att [0, 1, 2]

/-- Outcome of one image-generation call for one prompt inside
`generate_images`: an inline binary payload (possibly empty), a response
with no inline payload among its parts, or a raised error's message. -/
inductive ImgAttempt where
  | ok (b : List Byte)
  | noData
  | err (msg : String)
  deriving Repr, DecidableEq

/-- The per-prompt retry loop of `generate_images`
(story_service.py lines 261–308).  Returns the image recorded for the
prompt (`none` on failure).  Python truthiness: an empty payload fails
the `if image_data:` test and is handled like a missing payload. -/
def imageAttemptLoop (att : Nat → ImgAttempt) : List Nat → Option (List Byte) × List Nat
  | [] => (none, [])
  | attempt :: rest =>
    match att attempt with
    | .ok b =>
        if b ≠ [] then (some b, [])
        else if attempt < 2 then
          let r := imageAttemptLoop att rest
          (r.1, 2 * 2 ^ attempt :: r.2)
        else (none, [])
    | .noData =>
        if attempt < 2 then
          let r := imageAttemptLoop att rest
          (r.1, 2 * 2 ^ attempt :: r.2)
        else (none, [])
    | .err m =>
        if isQuotaError m then (none, [])
        else if attempt < 2 then
          let r := imageAttemptLoop att rest
          (r.1, 2 * 2 ^ attempt :: r.2)
        else (none, [])

/-- The `for i, prompt in enumerate(prompts)` loop of `generate_images`
(story_service.py lines 257–310): one appended entry per prompt, plus
the fixed `time.sleep(1)` pacing after each prompt. -/
def generateImagesLoop (att : Nat → Nat → ImgAttempt) (i : Nat) :
    List String → List (Option (List Byte)) × List Nat
  | [] => ([], [])
  | _ :: rest =>
      let r := imageAttemptLoop (att i) [0, 1, 2]
      let r2 := generateImagesLoop att (i + 1) rest
      (r.1 :: r2.1, r.2 ++ 1 :: r2.2)

/-- `generate_images` (story_service.py lines 244–316).
`att i j` is the outcome of attempt `j` for prompt index `i`.  An
uninitialized client short-circuits to an all-`none` list.  (The outer
`except` clause of the source never fires in this model, since the loop
body's failure modes are all per-attempt outcomes.) -/
def generate_images (apiInit : Bool) (att : Nat → Nat → ImgAttempt)
    (prompts : List String) : List (Option (List Byte)) × List Nat :=
  if !apiInit then (List.replicate prompts.length none, [])
  else generateImagesLoop att 0 prompts

/-- The parsed JSON payload of a successful story-generation response:
`{title, moral, story, imagePrompts}` (story_service.py line 212). -/
structure StoryData where
  title : String
  moral : String
  story : List String
  imagePrompts : List String
  deriving Repr, DecidableEq

/-- Outcome of one story-generation attempt inside `generate_story`:
`ok sd` — the call returned non-empty text that (after stripping any
markdown fences) parses to `sd`; `empty` — the call returned empty
text; `err msg` — the call raised, or the returned text failed JSON
parsing, with message `msg` (both land in the same `except` clause). -/
inductive GenAttempt where
  | ok (sd : StoryData)
  | empty
  | err (msg : String)
  deriving Repr, DecidableEq

/-- Environment of `generate_story`: its own attempt outcomes plus the
per-prompt attempt outcomes consumed by the nested `generate_images`
call on the success path. -/
structure GenEnv where
  attempts : Nat → GenAttempt
  imgAttempts : Nat → Nat → ImgAttempt

/-- The retry loop of `generate_story` (story_service.py lines 185–235).
On success it invokes `generate_images` and assembles the `Story`; a
quota-signatured error returns the fallback story immediately; other
errors sleep `2 * 2 ** attempt` and retry while attempts remain, then
raise.  The sleep trace records this loop's own backoff sleeps (the
nested `generate_images` records its sleeps itself). -/
def generateStoryLoop (apiInit : Bool) (env : GenEnv)
    (kid_name theme story_type story_length special_ingredients
     child_description : String) : List Nat → Except String Story × List Nat
  | [] => (.error "story generation loop exhausted", [])
  | attempt :: rest =>
    match env.attempts attempt with
    | .ok sd =>
        (.ok { title := sd.title
               moral := sd.moral
               story := sd.story
               imagePrompts := sd.imagePrompts
               images := (generate_images apiInit env.imgAttempts sd.imagePrompts).1 },
         [])
    | .empty =>
        if attempt < 2 then
          let r := generateStoryLoop apiInit env kid_name theme story_type
            story_length special_ingredients child_description rest
          (r.1, 2 * 2 ^ attempt :: r.2)
        else (.error "Failed to generate story content", [])
    | .err m =>
        if isQuotaError m then
          (.ok (create_fallback_story kid_name theme story_type story_length
                  special_ingredients child_description), [])
        else if attempt < 2 then
          let r := generateStoryLoop apiInit env kid_name theme story_type
            story_length special_ingredients child_description rest
          (r.1, 2 * 2 ^ attempt :: r.2)
        else (.error ("Failed to generate story after 3 attempts: " ++ m), [])

/-- `generate_story` (story_service.py lines 114–242).  The outer
`try/except` re-inspects any propagated error for a quota signature and
substitutes the fallback story; otherwise it re-raises. -/
def generate_story (apiInit : Bool) (env : GenEnv)
    (kid_name age_level theme story_type story_length special_ingredients
     child_description : String) : Except String Story × List Nat :=
  let inner :=
    if !apiInit then (Except.error "Gemini API not initialized", ([] : List Nat))
    else generateStoryLoop apiInit env kid_name theme story_type story_length
      special_ingredients child_description [0, 1, 2]
  match inner.1 with
  | .ok s => (.ok s, inner.2)
  | .error m =>
      if isQuotaError m then
        (.ok (create_fallback_story kid_name theme story_type story_length
                special_ingredients child_description), inner.2)
      else (.error m, inner.2)

/-- The external world seen by one `process_story_request` run. -/
structure PipelineEnv where
  apiInit : Bool
  imageOk : Bool
  visAttempts : Nat → VisAttempt
  genEnv : GenEnv

/-- `process_story_request` (story_service.py lines 470–521).  Total —
the orchestrator absorbs every failure into a serialized fallback
story.  When `generate_story` propagates an error, the fallback uses
the already-obtained character description if it is truthy
(`locals()` check, line 510), else the default. -/
def process_story_request (env : PipelineEnv)
    (kid_name age_level theme story_type story_length
     special_ingredients : String) : StoryDict :=
  if !env.apiInit then
    (create_fallback_story kid_name theme story_type story_length
       special_ingredients defaultDescription).to_dict
  else
    let child_description := (analyze_photo env.apiInit env.imageOk env.visAttempts).1
    match (generate_story env.apiInit env.genEnv kid_name age_level theme
            story_type story_length special_ingredients child_description).1 with
    | .ok story => story.to_dict
    | .error _ =>
        let cd := if child_description ≠ "" then child_description
                  else defaultDescription
        (create_fallback_story kid_name theme story_type story_length
           special_ingredients cd).to_dict

/-! ### Helper lemmas -/

/-- A string built around `k` contains `k` as a substring. -/
lemma containsStr_mid (a k b : String) : containsStr (a ++ k ++ b) k = true := by
  simp only [containsStr, decide_eq_true_eq, String.data_append]
  exact ⟨a.data, b.data, by simp⟩

/-- A string starting with `k` contains `k` as a substring. -/
lemma containsStr_left (k b : String) : containsStr (k ++ b) k = true := by
  simp only [containsStr, decide_eq_true_eq, String.data_append]
  exact ⟨[], b.data, by simp⟩

/-- `lengthMapping` only takes the values 6, 8 and 12. -/
lemma lengthMapping_cases (sl : String) :
    lengthMapping sl = 6 ∨ lengthMapping sl = 8 ∨ lengthMapping sl = 12 := by
  unfold lengthMapping
  split_ifs <;> simp

/-- Every template in the `fallback_stories` table has 8 sentences and
4 image prompts. -/
lemma lookupFallback_shape (k theme : String) (t : FallbackTemplate)
    (h : lookupFallback k theme = some t) :
    t.story.length = 8 ∧ t.imagePrompts.length = 4 := by
  unfold lookupFallback at h
  split_ifs at h <;> cases h <;> exact ⟨rfl, rfl⟩

/-- The template selected by `create_fallback_story` has 8 sentences and
4 image prompts, whatever the requested theme. -/
lemma chosenTemplate_shape (k theme : String) :
    (chosenTemplate k theme).story.length = 8 ∧
    (chosenTemplate k theme).imagePrompts.length = 4 := by
  unfold chosenTemplate chosenTheme
  cases h : lookupFallback k theme with
  | some t => simpa [h] using lookupFallback_shape k theme t h
  | none =>
      simp only [h, Option.isSome_none, Bool.false_eq_true, if_false]
      exact lookupFallback_shape k "forest" (forestTemplate k) rfl

/-- Shape of `create_fallback_story` output: the sentence list has
length `lengthMapping story_length`, the prompt list has half that
length, and the images are an all-`none` list of the same length. -/
lemma create_fallback_shape (k theme st sl si cd : String) :
    (create_fallback_story k theme st sl si cd).story.length = lengthMapping sl ∧
    (create_fallback_story k theme st sl si cd).imagePrompts.length = lengthMapping sl / 2 ∧
    (create_fallback_story k theme st sl si cd).images
      = List.replicate (lengthMapping sl / 2) none := by
  obtain ⟨hs, hp⟩ := chosenTemplate_shape k theme
  unfold create_fallback_story
  rcases lengthMapping_cases sl with h | h | h <;>
    simp only [h, hs, hp, padTo] <;> norm_num <;>
    simp [hs, hp, List.length_take, List.length_append, List.length_replicate]

/-- Decoding inverts encoding on each 6-bit group. -/
lemma decB64_encB64 : ∀ i < 64, decB64 (encB64 i) = i := by decide

/-- The encoder never emits the padding character. -/
lemma encB64_ne_pad (i : Nat) : encB64 i ≠ '=' := by
  have hlen : b64chars.length = 64 := rfl
  by_cases h : i < 64
  · exact (show ∀ j < 64, encB64 j ≠ '=' by decide) i h
  · unfold encB64
    rw [List.getD_eq_default _ _ (by omega)]
    decide

/-- Base64 decoding inverts encoding on byte values. -/
lemma b64_roundtrip_nat :
    ∀ l : List Nat, (∀ b ∈ l, b < 256) → b64decodeNat (b64encodeNat l) = l
  | [], _ => rfl
  | [b1], h => by
      have hb1 : b1 < 256 := h b1 (by simp)
      have e1 := decB64_encB64 (b1 / 4) (by omega)
      have e2 := decB64_encB64 (b1 % 4 * 16) (by omega)
      simp only [b64encodeNat, b64decodeNat, if_pos, e1, e2]
      have : b1 / 4 * 4 + b1 % 4 * 16 / 16 = b1 := by omega
      rw [this]
  | [b1, b2], h => by
      have hb1 : b1 < 256 := h b1 (by simp)
      have hb2 : b2 < 256 := h b2 (by simp)
      have e1 := decB64_encB64 (b1 / 4) (by omega)
      have e2 := decB64_encB64 (b1 % 4 * 16 + b2 / 16) (by omega)
      have e3 := decB64_encB64 (b2 % 16 * 4) (by omega)
      simp only [b64encodeNat, b64decodeNat, if_neg (encB64_ne_pad _), if_pos, e1, e2, e3]
      have v1 : (b1 / 4) * 4 + (b1 % 4 * 16 + b2 / 16) / 16 = b1 := by omega
      have v2 : (b1 % 4 * 16 + b2 / 16) % 16 * 16 + b2 % 16 * 4 / 4 = b2 := by omega
      rw [v1, v2]
  | b1 :: b2 :: b3 :: rest, h => by
      have hb1 : b1 < 256 := h b1 (by simp)
      have hb2 : b2 < 256 := h b2 (by simp)
      have hb3 : b3 < 256 := h b3 (by simp)
      have e1 := decB64_encB64 (b1 / 4) (by omega)
      have e2 := decB64_encB64 (b1 % 4 * 16 + b2 / 16) (by omega)
      have e3 := decB64_encB64 (b2 % 16 * 4 + b3 / 64) (by omega)
      have e4 := decB64_encB64 (b3 % 64) (by omega)
      have ih := b64_roundtrip_nat rest (fun b hb => h b (by simp [hb]))
      simp only [b64encodeNat, b64decodeNat, if_neg (encB64_ne_pad _), e1, e2, e3, e4, ih]
      have v1 : (b1 / 4) * 4 + (b1 % 4 * 16 + b2 / 16) / 16 = b1 := by omega
      have v2 : (b1 % 4 * 16 + b2 / 16) % 16 * 16 + (b2 % 16 * 4 + b3 / 64) / 4 = b2 := by
        omega
      have v3 : (b2 % 16 * 4 + b3 / 64) % 4 * 64 + b3 % 64 = b3 := by omega
      rw [v1, v2, v3]

/-- Transport round trip on one image payload. -/
lemma b64decode_b64encode (b : List Byte) : b64decode (b64encode b) = b := by
  unfold b64decode b64encode
  rw [show (String.mk (b64encodeNat (b.map Fin.val))).data
        = b64encodeNat (b.map Fin.val) from rfl]
  rw [b64_roundtrip_nat _ (by
    intro x hx
    simp only [List.mem_map] at hx
    obtain ⟨y, _, rfl⟩ := hx
    exact y.isLt)]
  rw [List.map_map]
  have hid : (mkByte ∘ Fin.val) = (id : Byte → Byte) :=
    funext fun x => Fin.ext (Nat.mod_eq_of_lt x.isLt)
  rw [hid, List.map_id]

/-- Serialize-then-decode is the identity on image lists whose present
entries are non-empty. -/
lemma roundtrip_images (l : List (Option (List Byte)))
    (h : ∀ b, some b ∈ l → b ≠ []) :
    (l.map serializeImage).map (Option.map b64decode) = l := by
  induction l with
  | nil => rfl
  | cons o rest ih =>
      simp only [List.map_cons]
      rw [ih (fun b hb => h b (List.mem_cons_of_mem _ hb))]
      congr 1
      cases o with
      | none => rfl
      | some b =>
          have hb : b ≠ [] := h b (List.mem_cons_self _ _)
          simp [serializeImage, hb, b64decode_b64encode]

/-! ### Claim theorems -/

/-- C5: for every input, the fallback story has 6/8/12 sentences for
`story_length` "short"/"medium"/"long" and 8 for every other value; the
image-prompt list has `len(story) // 2` entries, the image list is as
long as the prompt list, and every image entry is null. -/
theorem fallback_story_shape (kid_name theme story_type story_length
    special_ingredients child_description : String) :
    (story_length = "short" →
      (create_fallback_story kid_name theme story_type story_length
        special_ingredients child_description).story.length = 6) ∧
    (story_length = "medium" →
      (create_fallback_story kid_name theme story_type story_length
        special_ingredients child_description).story.length = 8) ∧
    (story_length = "long" →
      (create_fallback_story kid_name theme story_type story_length
        special_ingredients child_description).story.length = 12) ∧
    (story_length ∉ (["short", "medium", "long"] : List String) →
      (create_fallback_story kid_name theme story_type story_length
        special_ingredients child_description).story.length = 8) ∧
    (create_fallback_story kid_name theme story_type story_length
        special_ingredients child_description).imagePrompts.length
      = (create_fallback_story kid_name theme story_type story_length
          special_ingredients child_description).story.length / 2 ∧
    (create_fallback_story kid_name theme story_type story_length
        special_ingredients child_description).images.length
      = (create_fallback_story kid_name theme story_type story_length
          special_ingredients child_description).imagePrompts.length ∧
    (∀ img ∈ (create_fallback_story kid_name theme story_type story_length
        special_ingredients child_description).images, img = none) := by
  obtain ⟨h1, h2, h3⟩ := create_fallback_shape kid_name theme story_type
    story_length special_ingredients child_description
  refine ⟨?_, ?_, ?_, ?_, ?_, ?_, ?_⟩
  · intro h; rw [h1, h]; rfl
  · intro h; rw [h1, h]; rfl
  · intro h; rw [h1, h]; rfl
  · intro h
    simp only [List.mem_cons, not_or] at h
    obtain ⟨hs, hm, hl, _⟩ := h
    rw [h1]; unfold lengthMapping; simp [hs, hm, hl]
  · rw [h1, h2]
  · rw [h2, h3, List.length_replicate]
  · intro img himg
    rw [h3] at himg
    exact List.eq_of_mem_replicate himg

/-- Witness for C5 at a concrete input (`story_length = "short"`). -/
theorem fallback_story_shape_witness :
    (create_fallback_story "Mia" "space" "adventure" "short" "" "").story.length = 6 ∧
    (create_fallback_story "Mia" "space" "adventure" "short" "" "").imagePrompts.length = 3 ∧
    (∀ img ∈ (create_fallback_story "Mia" "space" "adventure" "short" "" "").images,
      img = none) := by
  obtain ⟨h1, _, _, _, h5, _, h7⟩ :=
    fallback_story_shape "Mia" "space" "adventure" "short" "" ""
  exact ⟨h1 rfl, by rw [h5, h1 rfl], h7⟩

/-- C6: any theme outside the five-member template set (including
"custom") selects the forest template — the fallback output equals the
output for theme "forest" in every field. -/
theorem fallback_unknown_theme (kid_name story_type story_length
    special_ingredients child_description theme : String)
    (h : theme ∉ (["forest", "space", "ocean", "kingdom", "dinosaur"] : List String)) :
    create_fallback_story kid_name theme story_type story_length
      special_ingredients child_description
      = create_fallback_story kid_name "forest" story_type story_length
          special_ingredients child_description := by
  simp only [List.mem_cons, not_or] at h
  obtain ⟨h1, h2, h3, h4, h5, _⟩ := h
  have hnone : lookupFallback kid_name theme = none := by
    unfold lookupFallback
    simp [h1, h2, h3, h4, h5]
  have hth : chosenTheme kid_name theme = "forest" := by simp [chosenTheme, hnone]
  have hth2 : chosenTheme kid_name "forest" = "forest" := by
    simp [chosenTheme, lookupFallback]
  unfold create_fallback_story chosenTemplate
  rw [hth, hth2]

/-- Witness for C6 at the concrete theme "custom". -/
theorem fallback_unknown_theme_witness :
    create_fallback_story "Mia" "custom" "adventure" "medium" "" ""
      = create_fallback_story "Mia" "forest" "adventure" "medium" "" "" :=
  fallback_unknown_theme "Mia" "adventure" "medium" "" "" "custom" (by decide)

/-- C8: when the required sentence count is 8 — the template's own
sentence count — shape correction is a no-op: the returned sentence and
prompt lists are exactly the template's. -/
theorem fallback_shape_noop (kid_name theme story_type story_length
    special_ingredients child_description : String)
    (h : lengthMapping story_length = 8) :
    (create_fallback_story kid_name theme story_type story_length
        special_ingredients child_description).story
      = (chosenTemplate kid_name theme).story ∧
    (create_fallback_story kid_name theme story_type story_length
        special_ingredients child_description).imagePrompts
      = (chosenTemplate kid_name theme).imagePrompts := by
  obtain ⟨hs, hp⟩ := chosenTemplate_shape kid_name theme
  unfold create_fallback_story
  simp [h, hs]

/-- Witness for C8 at the concrete length "medium". -/
theorem fallback_shape_noop_witness :
    (create_fallback_story "Mia" "ocean" "adventure" "medium" "" "").story
      = (chosenTemplate "Mia" "ocean").story ∧
    (create_fallback_story "Mia" "ocean" "adventure" "medium" "" "").imagePrompts
      = (chosenTemplate "Mia" "ocean").imagePrompts :=
  fallback_shape_noop "Mia" "ocean" "adventure" "medium" "" "" (by decide)

/-- C7 counterexample: the claim "each of the 8 sentences of that
theme's fallback template contains the kid_name string" is false — the
fifth forest sentence (the owl's speech, story_service.py line 348) is a
fixed string with no interpolation, so for kid_name "Mia" it does not
contain "Mia", although it is one of the template's 8 sentences. -/
theorem fallback_kid_name_counterexample :
    ((forestTemplate "Mia").story.getD 4 "") ∈ (forestTemplate "Mia").story ∧
    containsStr ((forestTemplate "Mia").story.getD 4 "") "Mia" = false := by
  decide

/-- C7 (amended): for every kid_name and every theme in the template
set, the template's title and all 4 image prompts interpolate kid_name,
and every sentence interpolates kid_name except the forest sentence at
index 4, the space sentence at index 1, and the dinosaur sentences at
indices 4 and 5, which are fixed strings without interpolation. -/
theorem fallback_kid_name_interpolation (k : String) :
    (∀ t ∈ [forestTemplate k, spaceTemplate k, oceanTemplate k,
            kingdomTemplate k, dinosaurTemplate k],
       containsStr t.title k = true ∧
       ∀ p ∈ t.imagePrompts, containsStr p k = true) ∧
    (∀ i < 8, i ≠ 4 → containsStr ((forestTemplate k).story.getD i "") k = true) ∧
    (∀ i < 8, i ≠ 1 → containsStr ((spaceTemplate k).story.getD i "") k = true) ∧
    (∀ s ∈ (oceanTemplate k).story, containsStr s k = true) ∧
    (∀ s ∈ (kingdomTemplate k).story, containsStr s k = true) ∧
    (∀ i < 8, i ≠ 4 → i ≠ 5 →
       containsStr ((dinosaurTemplate k).story.getD i "") k = true) := by
  refine ⟨?_, ?_, ?_, ?_, ?_, ?_⟩
  · intro t ht
    simp only [List.mem_cons, List.not_mem_nil, or_false] at ht
    rcases ht with rfl | rfl | rfl | rfl | rfl <;>
    · refine ⟨?_, ?_⟩
      · first
          | exact containsStr_left _ _
          | exact containsStr_mid _ _ _
      · intro p hp
        simp only [forestTemplate, spaceTemplate, oceanTemplate, kingdomTemplate,
          dinosaurTemplate, List.mem_cons, List.not_mem_nil, or_false] at hp
        rcases hp with rfl | rfl | rfl | rfl <;>
          first
            | exact containsStr_left _ _
            | exact containsStr_mid _ _ _
  · intro i hi hne
    interval_cases i <;>
      simp only [forestTemplate, List.getD_cons_zero, List.getD_cons_succ] <;>
      first
        | exact containsStr_mid _ _ _
        | exact containsStr_left _ _
        | omega
  · intro i hi hne
    interval_cases i <;>
      simp only [spaceTemplate, List.getD_cons_zero, List.getD_cons_succ] <;>
      first
        | exact containsStr_mid _ _ _
        | exact containsStr_left _ _
        | omega
  · intro s hs
    simp only [oceanTemplate, List.mem_cons, List.not_mem_nil, or_false] at hs
    rcases hs with rfl | rfl | rfl | rfl | rfl | rfl | rfl | rfl <;>
      first
        | exact containsStr_mid _ _ _
        | exact containsStr_left _ _
  · intro s hs
    simp only [kingdomTemplate, List.mem_cons, List.not_mem_nil, or_false] at hs
    rcases hs with rfl | rfl | rfl | rfl | rfl | rfl | rfl | rfl <;>
      first
        | exact containsStr_mid _ _ _
        | exact containsStr_left _ _
  · intro i hi hne4 hne5
    interval_cases i <;>
      simp only [dinosaurTemplate, List.getD_cons_zero, List.getD_cons_succ] <;>
      first
        | exact containsStr_mid _ _ _
        | exact containsStr_left _ _
        | omega

/-- Witness for the amended C7 at the concrete kid_name "Mia". -/
theorem fallback_kid_name_interpolation_witness :
    containsStr ((forestTemplate "Mia").story.getD 0 "") "Mia" = true ∧
    containsStr (spaceTemplate "Mia").title "Mia" = true := by
  obtain ⟨hall, hf, _, _, _, _⟩ := fallback_kid_name_interpolation "Mia"
  exact ⟨hf 0 (by omega) (by omega),
    (hall (spaceTemplate "Mia")
      (List.mem_cons_of_mem _ (List.mem_cons_self _ _))).1⟩

/-- C9 counterexample: the round trip does not preserve null positions
for every StoryDocument — a present but zero-length image at position 0
serializes to null (Python truthiness), so after the round trip the
position is null although it was not null before. -/
theorem round_trip_null_counterexample :
    (decodeDict (Story.to_dict
        { title := "t", moral := "m", story := ["a"], imagePrompts := ["p"],
          images := [some []] })).images = [none] ∧
    ({ title := "t", moral := "m", story := ["a"], imagePrompts := ["p"],
       images := [some []] } : Story).images ≠ [none] := by
  decide

/-- C9 (amended): for every StoryDocument whose present images are all
non-empty, serializing to the transport form with `to_dict` and decoding
back yields the document unchanged — in particular sentence order,
prompt order, null-image positions and image bytes are preserved. -/
theorem to_dict_round_trip (s : Story)
    (h : ∀ b, some b ∈ s.images → b ≠ []) :
    decodeDict s.to_dict = s := by
  cases s with
  | mk title moral story imagePrompts images =>
      simp only [Story.to_dict, decodeDict, Story.mk.injEq, true_and]
      exact roundtrip_images images h

/-- Witness for the amended C9 at a concrete two-image document. -/
theorem to_dict_round_trip_witness :
    decodeDict (Story.to_dict
        { title := "The Tale", moral := "Be kind", story := ["s1", "s2"],
          imagePrompts := ["p1"], images := [some [72, 105], none] })
      = { title := "The Tale", moral := "Be kind", story := ["s1", "s2"],
          imagePrompts := ["p1"], images := [some [72, 105], none] } := by
  apply to_dict_round_trip
  intro b hb
  simp only [List.mem_cons, List.not_mem_nil, or_false, Option.some.injEq,
    reduceCtorEq] at hb
  subst hb
  decide

/-- C10: `to_dict` tests truthiness, not presence — a present but
zero-length image blob serializes to null, exactly like an absent
(failed) illustration, so the two are indistinguishable after
serialization. -/
theorem to_dict_empty_image_null (s : Story) (i : Nat) :
    (s.images[i]? = some (some ([] : List Byte)) →
        s.to_dict.images[i]? = some none) ∧
    (s.images[i]? = some none → s.to_dict.images[i]? = some none) := by
  constructor <;> intro h <;>
    simp [Story.to_dict, List.getElem?_map, h, serializeImage]

/-- Witness for C10 at a concrete document with an empty blob. -/
theorem to_dict_empty_image_null_witness :
    (Story.to_dict
        { title := "t", moral := "m", story := ["a"], imagePrompts := ["p"],
          images := [some []] }).images[0]? = some none :=
  (to_dict_empty_image_null
    { title := "t", moral := "m", story := ["a"], imagePrompts := ["p"],
      images := [some []] } 0).1 rfl

/-! ### Retry-loop lemmas -/

/-- A quota-signatured error at attempt `j` makes the per-prompt image
loop record `none`, with only the backoff sleeps of the earlier failed
attempts. -/
lemma imageAttemptLoop_quota (att : Nat → ImgAttempt) (j : Nat) (m : String)
    (hj : j < 3)
    (hprev : ∀ l < j, att l = .noData ∨ att l = .ok [] ∨
       ∃ ml, att l = .err ml ∧ isQuotaError ml = false)
    (hq : att j = .err m) (hm : isQuotaError m = true) :
    imageAttemptLoop att [0, 1, 2]
      = (none, (List.range j).map (fun l => 2 * 2 ^ l)) := by
  interval_cases j
  · simp [imageAttemptLoop, hq, hm]
  · rcases hprev 0 (by omega) with h0 | h0 | ⟨m0, h0, hm0⟩ <;>
      simp_all [imageAttemptLoop, List.range_succ]
  · rcases hprev 0 (by omega) with h0 | h0 | ⟨m0, h0, hm0⟩ <;>
      rcases hprev 1 (by omega) with h1 | h1 | ⟨m1, h1, hm1⟩ <;>
        simp_all [imageAttemptLoop, List.range_succ]

/-- A first truthy payload at attempt `j`, after `j` non-quota failures,
makes the per-prompt image loop record that payload, with exactly the
`j` backoff sleeps `2 * 2 ^ l`. -/
lemma imageAttemptLoop_success (att : Nat → ImgAttempt) (j : Nat) (b : List Byte)
    (hj : j < 3)
    (hprev : ∀ l < j, ∃ ml, att l = .err ml ∧ isQuotaError ml = false)
    (hok : att j = .ok b) (hb : b ≠ []) :
    imageAttemptLoop att [0, 1, 2]
      = (some b, (List.range j).map (fun l => 2 * 2 ^ l)) := by
  interval_cases j
  · simp [imageAttemptLoop, hok, hb]
  · obtain ⟨m0, h0, hm0⟩ := hprev 0 (by omega)
    simp_all [imageAttemptLoop, List.range_succ]
  · obtain ⟨m0, h0, hm0⟩ := hprev 0 (by omega)
    obtain ⟨m1, h1, hm1⟩ := hprev 1 (by omega)
    simp_all [imageAttemptLoop, List.range_succ]

/-- A quota-signatured error at attempt `j` makes `analyze_photo`'s loop
break to the default description, with only the earlier backoff
sleeps. -/
lemma analyzePhotoLoop_quota (att : Nat → VisAttempt) (j : Nat) (m : String)
    (hj : j < 3)
    (hprev : ∀ l < j, att l = .ok "" ∨
       ∃ ml, att l = .err ml ∧ isQuotaError ml = false)
    (hq : att j = .err m) (hm : isQuotaError m = true) :
    analyzePhotoLoop att [0, 1, 2]
      = (defaultDescription, (List.range j).map (fun l => 2 * 2 ^ l)) := by
  interval_cases j
  · simp [analyzePhotoLoop, hq, hm]
  · rcases hprev 0 (by omega) with h0 | ⟨m0, h0, hm0⟩ <;>
      simp_all [analyzePhotoLoop, List.range_succ]
  · rcases hprev 0 (by omega) with h0 | ⟨m0, h0, hm0⟩ <;>
      rcases hprev 1 (by omega) with h1 | ⟨m1, h1, hm1⟩ <;>
        simp_all [analyzePhotoLoop, List.range_succ]

/-- A first non-empty response at attempt `j`, after `j` non-quota
failures, makes `analyze_photo`'s loop return the trimmed text with
exactly the `j` backoff sleeps. -/
lemma analyzePhotoLoop_success (att : Nat → VisAttempt) (j : Nat) (t : String)
    (hj : j < 3)
    (hprev : ∀ l < j, ∃ ml, att l = .err ml ∧ isQuotaError ml = false)
    (hok : att j = .ok t) (ht : t ≠ "") :
    analyzePhotoLoop att [0, 1, 2]
      = (t.trim, (List.range j).map (fun l => 2 * 2 ^ l)) := by
  interval_cases j
  · simp [analyzePhotoLoop, hok, ht]
  · obtain ⟨m0, h0, hm0⟩ := hprev 0 (by omega)
    simp_all [analyzePhotoLoop, List.range_succ]
  · obtain ⟨m0, h0, hm0⟩ := hprev 0 (by omega)
    obtain ⟨m1, h1, hm1⟩ := hprev 1 (by omega)
    simp_all [analyzePhotoLoop, List.range_succ]

/-- A quota-signatured error at attempt `j` makes the story loop return
the fallback story immediately — no further attempt, no further backoff
sleep. -/
lemma generateStoryLoop_quota (apiInit : Bool) (env : GenEnv)
    (kid_name theme story_type story_length special_ingredients
     child_description : String) (j : Nat) (m : String)
    (hj : j < 3)
    (hprev : ∀ l < j, env.attempts l = .empty ∨
       ∃ ml, env.attempts l = .err ml ∧ isQuotaError ml = false)
    (hq : env.attempts j = .err m) (hm : isQuotaError m = true) :
    generateStoryLoop apiInit env kid_name theme story_type story_length
        special_ingredients child_description [0, 1, 2]
      = (.ok (create_fallback_story kid_name theme story_type story_length
                special_ingredients child_description),
         (List.range j).map (fun l => 2 * 2 ^ l)) := by
  interval_cases j
  · simp [generateStoryLoop, hq, hm]
  · rcases hprev 0 (by omega) with h0 | ⟨m0, h0, hm0⟩ <;>
      simp_all [generateStoryLoop, List.range_succ]
  · rcases hprev 0 (by omega) with h0 | ⟨m0, h0, hm0⟩ <;>
      rcases hprev 1 (by omega) with h1 | ⟨m1, h1, hm1⟩ <;>
        simp_all [generateStoryLoop, List.range_succ]

/-- A successfully parsed response at attempt `j`, after `j` non-quota
failures, makes the story loop assemble the story (with its generated
images) after exactly the `j` backoff sleeps. -/
lemma generateStoryLoop_success (apiInit : Bool) (env : GenEnv)
    (kid_name theme story_type story_length special_ingredients
     child_description : String) (j : Nat) (sd : StoryData)
    (hj : j < 3)
    (hprev : ∀ l < j, ∃ ml, env.attempts l = .err ml ∧ isQuotaError ml = false)
    (hok : env.attempts j = .ok sd) :
    generateStoryLoop apiInit env kid_name theme story_type story_length
        special_ingredients child_description [0, 1, 2]
      = (.ok { title := sd.title, moral := sd.moral, story := sd.story,
               imagePrompts := sd.imagePrompts,
               images := (generate_images apiInit env.imgAttempts sd.imagePrompts).1 },
         (List.range j).map (fun l => 2 * 2 ^ l)) := by
  interval_cases j
  · simp [generateStoryLoop, hok]
  · obtain ⟨m0, h0, hm0⟩ := hprev 0 (by omega)
    simp_all [generateStoryLoop, List.range_succ]
  · obtain ⟨m0, h0, hm0⟩ := hprev 0 (by omega)
    obtain ⟨m1, h1, hm1⟩ := hprev 1 (by omega)
    simp_all [generateStoryLoop, List.range_succ]

/-- The image batch loop yields one entry per prompt. -/
lemma generateImagesLoop_length (att : Nat → Nat → ImgAttempt) :
    ∀ (prompts : List String) (i : Nat),
      (generateImagesLoop att i prompts).1.length = prompts.length
  | [], _ => rfl
  | _ :: rest, i => by
      simp [generateImagesLoop, generateImagesLoop_length att rest (i + 1)]

/-- Each entry of the image batch is exactly the outcome of that
prompt's own retry loop: positions are independent, and a failure at one
prompt never terminates the batch. -/
lemma generateImagesLoop_getElem (att : Nat → Nat → ImgAttempt) :
    ∀ (prompts : List String) (i j : Nat), j < prompts.length →
      (generateImagesLoop att i prompts).1[j]?
        = some (imageAttemptLoop (att (i + j)) [0, 1, 2]).1
  | [], _, j, hj => absurd hj (by simp)
  | _ :: rest, i, 0, _ => by simp [generateImagesLoop]
  | _ :: rest, i, j + 1, hj => by
      have ih := generateImagesLoop_getElem att rest (i + 1) j
        (by simpa using Nat.lt_of_succ_lt_succ hj)
      simpa [generateImagesLoop, Nat.add_assoc, Nat.add_comm 1 j] using ih

/-- C2: `generate_images` returns one entry (image bytes or null) per
prompt: the result has exactly the input length (all-null without an
initialized client); each position is determined by that prompt's own
retry loop alone (no early termination of the batch); and a
quota-signatured error on a prompt's attempt records null at exactly
that position. -/
theorem generate_images_batch (att : Nat → Nat → ImgAttempt)
    (prompts : List String) :
    (generate_images true att prompts).1.length = prompts.length ∧
    (generate_images false att prompts).1 = List.replicate prompts.length none ∧
    (∀ i < prompts.length,
        (generate_images true att prompts).1[i]?
          = some (imageAttemptLoop (att i) [0, 1, 2]).1) ∧
    (∀ i < prompts.length, ∀ j < 3, ∀ m,
        (∀ l < j, att i l = .noData ∨ att i l = .ok [] ∨
           ∃ ml, att i l = .err ml ∧ isQuotaError ml = false) →
        att i j = .err m → isQuotaError m = true →
        (generate_images true att prompts).1[i]? = some none) := by
  refine ⟨?_, by simp [generate_images], ?_, ?_⟩
  · simpa [generate_images] using generateImagesLoop_length att prompts 0
  · intro i hi
    simpa [generate_images] using generateImagesLoop_getElem att prompts 0 i hi
  · intro i hi j hj m hprev hq hm
    have h := generateImagesLoop_getElem att prompts 0 i hi
    rw [imageAttemptLoop_quota (att (0 + i)) j m hj (by simpa using hprev)
      (by simpa using hq) hm] at h
    simpa [generate_images] using h

/-- Witness for C2: four prompts where prompt index 1 fails with a quota
signature and the others succeed — result `[img, null, img, img]`. -/
theorem generate_images_batch_witness :
    (generate_images true
        (fun i _ => if i = 1 then ImgAttempt.err "429 RESOURCE_EXHAUSTED"
                    else ImgAttempt.ok [7])
        ["p1", "p2", "p3", "p4"]).1
      = [some [7], none, some [7], some [7]] ∧
    (generate_images true
        (fun i _ => if i = 1 then ImgAttempt.err "429 RESOURCE_EXHAUSTED"
                    else ImgAttempt.ok [7])
        ["p1", "p2", "p3", "p4"]).1[1]? = some none := by
  refine ⟨by decide, ?_⟩
  exact (generate_images_batch
      (fun i _ => if i = 1 then ImgAttempt.err "429 RESOURCE_EXHAUSTED"
                  else ImgAttempt.ok [7])
      ["p1", "p2", "p3", "p4"]).2.2.2 1 (by decide) 0 (by decide)
    "429 RESOURCE_EXHAUSTED" (fun l hl => absurd hl (by omega)) (by decide)
    (by decide)

/-- C3: a quota-signatured failure (message containing "429" or,
case-insensitively, "quota") at any attempt stops the retry policy at
that attempt — no further retry and no further backoff sleep; the
narrative generator returns the fallback story immediately, and the
photo analyzer breaks to the default description. -/
theorem quota_fast_fail (genv : GenEnv) (vatt : Nat → VisAttempt)
    (kid_name age_level theme story_type story_length special_ingredients
     child_description : String) (j : Nat) (m : String)
    (hj : j < 3) (hm : isQuotaError m = true)
    (hgprev : ∀ l < j, genv.attempts l = .empty ∨
       ∃ ml, genv.attempts l = .err ml ∧ isQuotaError ml = false)
    (hgj : genv.attempts j = .err m)
    (hvprev : ∀ l < j, vatt l = .ok "" ∨
       ∃ ml, vatt l = .err ml ∧ isQuotaError ml = false)
    (hvj : vatt j = .err m) :
    generate_story true genv kid_name age_level theme story_type story_length
        special_ingredients child_description
      = (.ok (create_fallback_story kid_name theme story_type story_length
                special_ingredients child_description),
         (List.range j).map (fun l => 2 * 2 ^ l)) ∧
    analyze_photo true true vatt
      = (defaultDescription, (List.range j).map (fun l => 2 * 2 ^ l)) := by
  constructor
  · have h := generateStoryLoop_quota true genv kid_name theme story_type
      story_length special_ingredients child_description j m hj hgprev hgj hm
    simp [generate_story, h]
  · have h := analyzePhotoLoop_quota vatt j m hj hvprev hvj hm
    simp [analyze_photo, h]

/-- Witness for C3: quota error at attempt 1 after one non-quota
failure — fallback and default description after a single backoff
sleep of duration 2. -/
theorem quota_fast_fail_witness :
    generate_story true
        ⟨fun i => if i = 0 then .err "boom" else .err "quota exceeded",
         fun _ _ => .noData⟩
        "Mia" "5" "space" "adventure" "short" "" "desc"
      = (.ok (create_fallback_story "Mia" "space" "adventure" "short" "" "desc"),
         [2]) ∧
    analyze_photo true true
        (fun i => if i = 0 then .err "boom" else .err "quota exceeded")
      = (defaultDescription, [2]) := by
  have h := quota_fast_fail
    ⟨fun i => if i = 0 then .err "boom" else .err "quota exceeded",
     fun _ _ => .noData⟩
    (fun i => if i = 0 then .err "boom" else .err "quota exceeded")
    "Mia" "5" "space" "adventure" "short" "" "desc" 1 "quota exceeded"
    (by decide) (by decide)
    (fun l hl => by
      interval_cases l
      exact Or.inr ⟨"boom", rfl, by decide⟩)
    rfl
    (fun l hl => by
      interval_cases l
      exact Or.inr ⟨"boom", rfl, by decide⟩)
    rfl
  simpa using h

/-- C4: under the retry policy (3 attempts, base delay 2), an operation
that fails `j < 3` times with non-quota errors and then succeeds yields
the success value with exactly `j` backoff sleeps of durations
`2 * 2 ^ 0, …, 2 * 2 ^ (j-1)` in order — for the narrative generator,
the photo analyzer, and the per-prompt illustration loop alike. -/
theorem retry_backoff_success (genv : GenEnv) (vatt : Nat → VisAttempt)
    (iatt : Nat → ImgAttempt)
    (kid_name age_level theme story_type story_length special_ingredients
     child_description : String) (j : Nat) (sd : StoryData) (t : String)
    (b : List Byte)
    (hj : j < 3)
    (hgprev : ∀ l < j, ∃ ml, genv.attempts l = .err ml ∧ isQuotaError ml = false)
    (hgj : genv.attempts j = .ok sd)
    (hvprev : ∀ l < j, ∃ ml, vatt l = .err ml ∧ isQuotaError ml = false)
    (hvj : vatt j = .ok t) (ht : t ≠ "")
    (hiprev : ∀ l < j, ∃ ml, iatt l = .err ml ∧ isQuotaError ml = false)
    (hij : iatt j = .ok b) (hb : b ≠ []) :
    generate_story true genv kid_name age_level theme story_type story_length
        special_ingredients child_description
      = (.ok { title := sd.title, moral := sd.moral, story := sd.story,
               imagePrompts := sd.imagePrompts,
               images := (generate_images true genv.imgAttempts sd.imagePrompts).1 },
         (List.range j).map (fun l => 2 * 2 ^ l)) ∧
    analyze_photo true true vatt
      = (t.trim, (List.range j).map (fun l => 2 * 2 ^ l)) ∧
    imageAttemptLoop iatt [0, 1, 2]
      = (some b, (List.range j).map (fun l => 2 * 2 ^ l)) := by
  refine ⟨?_, ?_, ?_⟩
  · have h := generateStoryLoop_success true genv kid_name theme story_type
      story_length special_ingredients child_description j sd hj hgprev hgj
    simp [generate_story, h]
  · have h := analyzePhotoLoop_success vatt j t hj hvprev hvj ht
    simp [analyze_photo, h]
  · exact imageAttemptLoop_success iatt j b hj hiprev hij hb

/-- Witness for C4 at `j = 2`: two non-quota failures then success —
success value delivered after backoff sleeps `[2, 4]`. -/
theorem retry_backoff_success_witness :
    generate_story true
        ⟨fun i => if i < 2 then .err "boom"
                  else .ok ⟨"T", "M", ["s1", "s2"], ["p1"]⟩,
         fun _ _ => .ok [7]⟩
        "Mia" "5" "space" "adventure" "short" "" "desc"
      = (.ok { title := "T", moral := "M", story := ["s1", "s2"],
               imagePrompts := ["p1"], images := [some [7]] },
         [2, 4]) ∧
    analyze_photo true true
        (fun i => if i < 2 then .err "boom" else .ok " the child ")
      = (" the child ".trim, [2, 4]) := by
  have h := retry_backoff_success
    ⟨fun i => if i < 2 then .err "boom"
              else .ok ⟨"T", "M", ["s1", "s2"], ["p1"]⟩,
     fun _ _ => .ok [7]⟩
    (fun i => if i < 2 then .err "boom" else .ok " the child ")
    (fun i => if i < 2 then .err "boom" else .ok [7])
    "Mia" "5" "space" "adventure" "short" "" "desc" 2
    ⟨"T", "M", ["s1", "s2"], ["p1"]⟩ " the child " [7]
    (by decide)
    (fun l hl => ⟨"boom", by interval_cases l <;> exact ⟨rfl, by decide⟩⟩)
    rfl
    (fun l hl => ⟨"boom", by interval_cases l <;> exact ⟨rfl, by decide⟩⟩)
    rfl (by decide)
    (fun l hl => ⟨"boom", by interval_cases l <;> exact ⟨rfl, by decide⟩⟩)
    rfl (by decide)
  refine ⟨?_, ?_⟩
  · refine h.1.trans ?_
    norm_num [List.range_succ]
    decide
  · refine h.2.1.trans ?_
    norm_num [List.range_succ]

/-- C1: `process_story_request` is total (never raises) and absorbs
every failure: without an initialized backend it returns the serialized
fallback story built with the default character description, and when
`generate_story` propagates an error it returns the serialized fallback
story built with the obtained character description (or the default if
the obtained one is empty). -/
theorem process_request_absorbs_failures (env : PipelineEnv)
    (kid_name age_level theme story_type story_length
     special_ingredients : String) :
    (env.apiInit = false →
        process_story_request env kid_name age_level theme story_type
            story_length special_ingredients
          = (create_fallback_story kid_name theme story_type story_length
               special_ingredients defaultDescription).to_dict) ∧
    (∀ m, env.apiInit = true →
        (generate_story true env.genEnv kid_name age_level theme story_type
            story_length special_ingredients
            (analyze_photo true env.imageOk env.visAttempts).1).1 = .error m →
        process_story_request env kid_name age_level theme story_type
            story_length special_ingredients
          = (create_fallback_story kid_name theme story_type story_length
               special_ingredients
               (if (analyze_photo true env.imageOk env.visAttempts).1 ≠ ""
                then (analyze_photo true env.imageOk env.visAttempts).1
                else defaultDescription)).to_dict) := by
  constructor
  · intro h
    simp [process_story_request, h]
  · intro m h hgen
    simp [process_story_request, h, hgen]

/-- Witness for C1: backend initialized, photo analysis failing over to
the default description, story generation exhausting its attempts with
non-quota errors — the request still returns a serialized fallback
story. -/
theorem process_request_absorbs_failures_witness :
    process_story_request
        ⟨true, true, fun _ => .err "offline",
         ⟨fun _ => .err "offline", fun _ _ => .noData⟩⟩
        "Mia" "5" "space" "adventure" "short" ""
      = (create_fallback_story "Mia" "space" "adventure" "short" ""
           defaultDescription).to_dict := by
  have h := (process_request_absorbs_failures
      ⟨true, true, fun _ => .err "offline",
       ⟨fun _ => .err "offline", fun _ _ => .noData⟩⟩
      "Mia" "5" "space" "adventure" "short" "").2
    "Failed to generate story after 3 attempts: offline" rfl rfl
  exact h.trans (by decide)

end Storybook
